import Mathlib

/-!
Verification of the toy-pay payments ledger.

The embedding follows the Rust source:
* `src/transaction.rs` — the `Transaction` record (id, amount, dispute flag);
* `src/client.rs` — the `Client` account state and its five operations
  (deposit, withdrawal, dispute, resolve, chargeback);
* `src/main.rs` — `process_requests`, which routes a list of parsed tokens
  to per-client accounts, creating accounts lazily.

Money (rust_decimal `Decimal` in the source, with exact decimal add, subtract
and compare) is modelled as `Int`: an exact scaled decimal value.  The
`BTreeMap` containers are modelled as functions to `Option`, which faithfully
captures `get`, `get_mut`, `insert` and `entry(..).or_insert_with(..)` — the
only map operations the source uses.  Rust methods taking `&mut self` and
returning `Result<(), Error>` become functions returning the new state paired
with an optional error, so that "state on error" is observable.
-/

namespace ToyPay

/-- Money: exact decimal arithmetic, modelled as a scaled integer. -/
abbrev Money := Int

/-- Struct `Transaction` from `src/transaction.rs`: a stored deposit/withdrawal fact. -/
structure Transaction where
  _transaction_id : Nat
  amount : Money
  disputed : Bool
deriving Repr, DecidableEq

/-- Constructor `Transaction::new`: fresh record with the given id and amount, not disputed. -/
def Transaction.new (id : Nat) (amount : Money) : Transaction :=
  { _transaction_id := id, amount := amount, disputed := false }

/-- Getter `Transaction::get_amount`. -/
def Transaction.get_amount (self : Transaction) : Money := self.amount

/-- Getter `Transaction::get_dispute_status`. -/
def Transaction.get_dispute_status (self : Transaction) : Bool := self.disputed

/-- Setter `Transaction::set_dispute_status`. -/
def Transaction.set_dispute_status (self : Transaction) (dispute : Bool) :
    Transaction :=
  { self with disputed := dispute }

/-- The error taxonomy from `src/main.rs`. -/
inductive Error where
  | LockedAccount (client : Nat)
  | TransactionDoesNotExist (client : Nat) (tx : Nat)
  | NotEnoughCredit (client : Nat)
  | TransactionNotDisputed (tx : Nat) (client : Nat)
deriving Repr, DecidableEq

/-- The `BTreeMap<u32, Transaction>` of an account, as a partial function. -/
abbrev TxMap := Nat → Option Transaction

/-- Map insert, as `BTreeMap::insert`: maps the key to the new value, keeps the rest. -/
def TxMap.insert (m : TxMap) (k : Nat) (v : Transaction) : TxMap :=
  fun j => if j = k then some v else m j

/-- Struct `Client` from `src/client.rs`: one account's state. -/
structure Client where
  client_id : Nat
  available_amount : Money
  held_amount : Money
  total_amount : Money
  locked : Bool
  transactions : TxMap

/-- Constructor `Client::new`: fresh account, zero balances, unlocked, empty map. -/
def Client.new (id : Nat) : Client :=
  { client_id := id
    available_amount := 0
    held_amount := 0
    total_amount := 0
    locked := false
    transactions := fun _ => none }

/-- Method `Client::deposit`: lock check, then store the record and credit the
    total and available balances. -/
def Client.deposit (self : Client) (transaction_id : Nat) (amount : Money) :
    Client × Option Error :=
  if self.locked then
    (self, some (Error.LockedAccount self.client_id))
  else
    ({ self with
        transactions :=
          self.transactions.insert transaction_id
            (Transaction.new transaction_id amount)
        total_amount := self.total_amount + amount
        available_amount := self.available_amount + amount }, none)

/-- Method `Client::withdrawal`: lock check, credit check, then store the record and
    debit the total and available balances. -/
def Client.withdrawal (self : Client) (transaction_id : Nat) (amount : Money) :
    Client × Option Error :=
  if self.locked then
    (self, some (Error.LockedAccount self.client_id))
  else if self.available_amount < amount then
    (self, some (Error.NotEnoughCredit self.client_id))
  else
    ({ self with
        transactions :=
          self.transactions.insert transaction_id
            (Transaction.new transaction_id amount)
        total_amount := self.total_amount - amount
        available_amount := self.available_amount - amount }, none)

/-- Method `Client::dispute`: lock check, then if the transaction exists, mark it
    disputed (unconditionally) and shift its amount from available to held. -/
def Client.dispute (self : Client) (transaction_id : Nat) :
    Client × Option Error :=
  if self.locked then
    (self, some (Error.LockedAccount self.client_id))
  else
    match self.transactions transaction_id with
    | some transaction =>
        ({ self with
            transactions :=
              self.transactions.insert transaction_id
                (transaction.set_dispute_status true)
            held_amount := self.held_amount + transaction.get_amount
            available_amount :=
              self.available_amount - transaction.get_amount }, none)
    | none =>
        (self, some (Error.TransactionDoesNotExist self.client_id
          transaction_id))

/-- Method `Client::resolve`: lock check, then if the transaction exists and is
    disputed, clear the flag and shift its amount from held back to available. -/
def Client.resolve (self : Client) (transaction_id : Nat) :
    Client × Option Error :=
  if self.locked then
    (self, some (Error.LockedAccount self.client_id))
  else
    match self.transactions transaction_id with
    | some transaction =>
        if transaction.get_dispute_status then
          ({ self with
              transactions :=
                self.transactions.insert transaction_id
                  (transaction.set_dispute_status false)
              held_amount := self.held_amount - transaction.get_amount
              available_amount :=
                self.available_amount + transaction.get_amount }, none)
        else
          (self, some (Error.TransactionNotDisputed transaction_id
            self.client_id))
    | none =>
        (self, some (Error.TransactionDoesNotExist self.client_id
          transaction_id))

/-- Method `Client::chargeback`: lock check, then if the transaction exists and is
    disputed, clear the flag, remove its amount from held and total, and lock
    the account. -/
def Client.chargeback (self : Client) (transaction_id : Nat) :
    Client × Option Error :=
  if self.locked then
    (self, some (Error.LockedAccount self.client_id))
  else
    match self.transactions transaction_id with
    | some transaction =>
        if transaction.get_dispute_status then
          ({ self with
              transactions :=
                self.transactions.insert transaction_id
                  (transaction.set_dispute_status false)
              held_amount := self.held_amount - transaction.get_amount
              total_amount := self.total_amount - transaction.get_amount
              locked := true }, none)
        else
          (self, some (Error.TransactionNotDisputed transaction_id
            self.client_id))
    | none =>
        (self, some (Error.TransactionDoesNotExist self.client_id
          transaction_id))

/-- One of the five account operations, with its per-call arguments. -/
inductive Op where
  | deposit (tx : Nat) (amount : Money)
  | withdrawal (tx : Nat) (amount : Money)
  | dispute (tx : Nat)
  | resolve (tx : Nat)
  | chargeback (tx : Nat)
deriving Repr, DecidableEq

/-- Dispatch one operation to the matching `Client` method. -/
def Client.applyOp (self : Client) (op : Op) : Client × Option Error :=
  match op with
  | .deposit tx amount => self.deposit tx amount
  | .withdrawal tx amount => self.withdrawal tx amount
  | .dispute tx => self.dispute tx
  | .resolve tx => self.resolve tx
  | .chargeback tx => self.chargeback tx

/-- Run a sequence of operations, keeping the state and dropping each
    per-operation result — as `process_requests` does for one client. -/
def Client.applyOps (self : Client) (ops : List Op) : Client :=
  ops.foldl (fun c op => (c.applyOp op).1) self

/-- Enum `TransactionType` from `src/main.rs`. -/
inductive TransactionType where
  | Deposit
  | Withdrawal
  | Dispute
  | Resolve
  | Chargeback
deriving Repr, DecidableEq

/-- Struct `Token` from `src/main.rs`: one parsed input record.  The amount field is
    optional in the input format. -/
structure Token where
  transaction_type : TransactionType
  client_id : Nat
  transaction_id : Nat
  amount : Option Money
deriving Repr, DecidableEq

/-- The `BTreeMap<u16, Client>` of the ledger, as a partial function. -/
abbrev Ledger := Nat → Option Client

/-- Map insert, as `BTreeMap::insert`, at the ledger level. -/
def Ledger.insert (m : Ledger) (k : Nat) (v : Client) : Ledger :=
  fun j => if j = k then some v else m j

/-- Lazy account lookup, as `clients.entry(id).or_insert_with(|| Client::new(id))`: the existing
    account, or a fresh one. -/
def Ledger.entryOrNew (m : Ledger) (id : Nat) : Client :=
  match m id with
  | some c => c
  | none => Client.new id

/-- One iteration of the `process_requests` loop from `src/main.rs`: route a
    token to its account, skipping deposit/withdrawal tokens with no amount,
    and discarding any per-operation error. -/
def processToken (clients : Ledger) (token : Token) : Ledger :=
  match token.transaction_type with
  | .Deposit =>
      match token.amount with
      | some amount =>
          clients.insert token.client_id
            ((clients.entryOrNew token.client_id).deposit
              token.transaction_id amount).1
      | none => clients
  | .Withdrawal =>
      match token.amount with
      | some amount =>
          clients.insert token.client_id
            ((clients.entryOrNew token.client_id).withdrawal
              token.transaction_id amount).1
      | none => clients
  | .Dispute =>
      clients.insert token.client_id
        ((clients.entryOrNew token.client_id).dispute token.transaction_id).1
  | .Resolve =>
      clients.insert token.client_id
        ((clients.entryOrNew token.client_id).resolve token.transaction_id).1
  | .Chargeback =>
      clients.insert token.client_id
        ((clients.entryOrNew token.client_id).chargeback
          token.transaction_id).1

/-- Function `process_requests` from `src/main.rs`: fold the token list over the
    ledger. -/
def process_requests (tokens : List Token) (clients : Ledger) : Ledger :=
  tokens.foldl processToken clients

/-! ### Helper lemmas -/

/-- Every single operation preserves `total = available + held`. -/
theorem applyOp_preserves_total (c : Client) (op : Op)
    (h : c.total_amount = c.available_amount + c.held_amount) :
    ((c.applyOp op).1).total_amount =
      ((c.applyOp op).1).available_amount + ((c.applyOp op).1).held_amount := by
  cases op <;>
    simp only [Client.applyOp, Client.deposit, Client.withdrawal,
      Client.dispute, Client.resolve, Client.chargeback] <;>
    repeat' split
  all_goals simp_all
  all_goals ring

/-- Every operation sequence preserves `total = available + held`. -/
theorem applyOps_preserves_total (ops : List Op) (c : Client)
    (h : c.total_amount = c.available_amount + c.held_amount) :
    (c.applyOps ops).total_amount =
      (c.applyOps ops).available_amount + (c.applyOps ops).held_amount := by
  induction ops generalizing c with
  | nil => exact h
  | cons op rest ih =>
      have hstep := applyOp_preserves_total c op h
      simpa [Client.applyOps, List.foldl] using ih ((c.applyOp op).1) hstep

/-! ### Claims -/

/-- C1: for every account state reachable from a fresh account by any
    sequence of deposit, withdrawal, dispute, resolve and chargeback
    operations, the total balance equals the available balance plus the held
    balance exactly. -/
theorem C1_total_eq_available_plus_held (id : Nat) (ops : List Op) :
    ((Client.new id).applyOps ops).total_amount =
      ((Client.new id).applyOps ops).available_amount +
        ((Client.new id).applyOps ops).held_amount :=
  applyOps_preserves_total ops (Client.new id) (by simp [Client.new])

/-- C2: on a locked account, every operation returns the `LockedAccount`
    error and leaves the whole account state — balances, transaction map and
    the locked flag itself — exactly as it was, so the flag never becomes
    false again. -/
theorem C2_locked_is_terminal (c : Client) (op : Op) (h : c.locked = true) :
    c.applyOp op = (c, some (Error.LockedAccount c.client_id)) := by
  cases op <;>
    simp [Client.applyOp, Client.deposit, Client.withdrawal, Client.dispute,
      Client.resolve, Client.chargeback, h]

/-- C2 witness: a deposit on a concrete locked account is rejected with
    `LockedAccount` and changes nothing. -/
theorem C2_locked_is_terminal_witness :
    ({ client_id := 7, available_amount := 2, held_amount := 0,
       total_amount := 2, locked := true,
       transactions := fun _ => none } : Client).applyOp (Op.deposit 1 5) =
      ({ client_id := 7, available_amount := 2, held_amount := 0,
         total_amount := 2, locked := true,
         transactions := fun _ => none }, some (Error.LockedAccount 7)) :=
  C2_locked_is_terminal _ _ rfl

/-- C3: whenever an operation returns an error, the account state —
    balances, locked flag and transaction map — is exactly the input state. -/
theorem C3_error_means_no_mutation (c : Client) (op : Op) (e : Error)
    (h : (c.applyOp op).2 = some e) : (c.applyOp op).1 = c := by
  cases op <;>
    simp only [Client.applyOp, Client.deposit, Client.withdrawal,
      Client.dispute, Client.resolve, Client.chargeback] at h ⊢ <;>
    repeat' split at h
  all_goals simp_all

/-- C3 witness: disputing an unknown transaction id on a fresh account
    errors and leaves the account unchanged. -/
theorem C3_error_means_no_mutation_witness :
    ((Client.new 1).applyOp (Op.dispute 0)).2 =
        some (Error.TransactionDoesNotExist 1 0) ∧
      ((Client.new 1).applyOp (Op.dispute 0)).1 = Client.new 1 :=
  ⟨rfl, C3_error_means_no_mutation _ _ _ rfl⟩

/-- C4: on an unlocked account, disputing a stored transaction id always
    succeeds, marks the record disputed regardless of its prior flag, moves
    the amount from available to held, and a second consecutive dispute of
    the same id applies the shift a second time. -/
theorem C4_dispute_not_idempotent (c : Client) (tx : Nat) (t : Transaction)
    (hl : c.locked = false) (ht : c.transactions tx = some t) :
    c.dispute tx =
      ({ c with
          transactions := c.transactions.insert tx (t.set_dispute_status true)
          held_amount := c.held_amount + t.amount
          available_amount := c.available_amount - t.amount }, none) ∧
    ((c.dispute tx).1).transactions tx = some (t.set_dispute_status true) ∧
    (((c.dispute tx).1.dispute tx).1).held_amount =
      c.held_amount + 2 * t.amount ∧
    (((c.dispute tx).1.dispute tx).1).available_amount =
      c.available_amount - 2 * t.amount := by
  have h1 : c.dispute tx =
      ({ c with
          transactions := c.transactions.insert tx (t.set_dispute_status true)
          held_amount := c.held_amount + t.amount
          available_amount := c.available_amount - t.amount }, none) := by
    simp [Client.dispute, hl, ht, Transaction.get_amount]
  have h2 : ((c.dispute tx).1).transactions tx =
      some (t.set_dispute_status true) := by
    simp [h1, TxMap.insert]
  refine ⟨h1, h2, ?_, ?_⟩ <;>
  · rw [h1]
    simp [Client.dispute, hl, TxMap.insert, Transaction.set_dispute_status,
      Transaction.get_amount]
    ring

/-- C4 witness: after a deposit of 3, two consecutive disputes of the same
    transaction shift 2 × 3 from available to held. -/
theorem C4_dispute_not_idempotent_witness :
    ((((((Client.new 1).deposit 1 3).1).dispute 1).1.dispute 1).1).held_amount
        = (((Client.new 1).deposit 1 3).1).held_amount + 2 * 3 :=
  (C4_dispute_not_idempotent (((Client.new 1).deposit 1 3).1) 1
    (Transaction.new 1 3) rfl rfl).2.2.1

/-- C5: on an unlocked account, withdrawal fails with `NotEnoughCredit` and
    mutates nothing exactly when available is below the amount; otherwise it
    stores a fresh undisputed record under the id and debits total and
    available by the amount. -/
theorem C5_withdrawal_guarded (c : Client) (tx : Nat) (amount : Money)
    (hl : c.locked = false) :
    (c.available_amount < amount →
        c.withdrawal tx amount =
          (c, some (Error.NotEnoughCredit c.client_id))) ∧
    (¬c.available_amount < amount →
        c.withdrawal tx amount =
          ({ c with
              transactions :=
                c.transactions.insert tx (Transaction.new tx amount)
              total_amount := c.total_amount - amount
              available_amount := c.available_amount - amount }, none)) := by
  constructor <;> intro hcmp <;> simp [Client.withdrawal, hl, hcmp]

/-- C5 witness: with 3 available, withdrawing 4 fails with `NotEnoughCredit`
    and returns the state unchanged. -/
theorem C5_withdrawal_guarded_witness :
    (((Client.new 1).deposit 1 3).1).withdrawal 2 4 =
      ((((Client.new 1).deposit 1 3).1),
        some (Error.NotEnoughCredit
          (((Client.new 1).deposit 1 3).1).client_id)) :=
  (C5_withdrawal_guarded (((Client.new 1).deposit 1 3).1) 2 4 rfl).1
    (by decide)

/-- C6: on an unlocked account, charging back a disputed stored transaction
    clears its disputed flag, debits held and total by the amount, leaves
    available unchanged, and locks the account. -/
theorem C6_chargeback_effect (c : Client) (tx : Nat) (t : Transaction)
    (hl : c.locked = false) (ht : c.transactions tx = some t)
    (hd : t.disputed = true) :
    c.chargeback tx =
      ({ c with
          transactions := c.transactions.insert tx (t.set_dispute_status false)
          held_amount := c.held_amount - t.amount
          total_amount := c.total_amount - t.amount
          locked := true }, none) ∧
    ((c.chargeback tx).1).available_amount = c.available_amount ∧
    ((c.chargeback tx).1).locked = true ∧
    ∀ t2, ((c.chargeback tx).1).transactions tx = some t2 →
      t2.disputed = false := by
  have h1 : c.chargeback tx =
      ({ c with
          transactions := c.transactions.insert tx (t.set_dispute_status false)
          held_amount := c.held_amount - t.amount
          total_amount := c.total_amount - t.amount
          locked := true }, none) := by
    simp [Client.chargeback, hl, ht, Transaction.get_dispute_status, hd,
      Transaction.get_amount]
  refine ⟨h1, by simp [h1], by simp [h1], ?_⟩
  intro t2 h2
  simp [h1, TxMap.insert] at h2
  simp [← h2, Transaction.set_dispute_status]

/-- C6 witness: deposit 3, dispute it, charge it back — the account ends
    locked with available untouched by the chargeback. -/
theorem C6_chargeback_effect_witness :
    (((((Client.new 1).deposit 1 3).1).dispute 1).1.chargeback 1).1.locked
        = true :=
  (C6_chargeback_effect ((((Client.new 1).deposit 1 3).1).dispute 1).1 1
    ((Transaction.new 1 3).set_dispute_status true) rfl rfl rfl).2.2.1

/-- Whether an operation is a deposit or withdrawal storing a record under
    the given transaction id. -/
def Op.storesAt (op : Op) (tx : Nat) : Bool :=
  match op with
  | .deposit t _ => t == tx
  | .withdrawal t _ => t == tx
  | .dispute _ => false
  | .resolve _ => false
  | .chargeback _ => false

/-- C7 counterexample: a second deposit reusing transaction id 1 replaces the
    stored record — after deposit(1, 5) then deposit(1, 7), the record under
    id 1 carries amount 7, not the original amount 5. -/
theorem C7_record_immutable_counterexample :
    ((((Client.new 1).deposit 1 5).1.deposit 1 7).1).transactions 1 =
        some (Transaction.new 1 7) ∧
      Transaction.new 1 7 ≠ Transaction.new 1 5 :=
  ⟨rfl, by decide⟩

/-- C7 amended: a stored record is never deleted, and every operation other
    than a deposit or withdrawal carrying the same id preserves its id and
    amount, mutating at most the disputed flag; but a successful deposit or
    withdrawal reusing the id replaces the record with a fresh one
    (last-write-wins). -/
theorem C7_record_lifecycle (c : Client) (op : Op) (tx : Nat)
    (t : Transaction) (ht : c.transactions tx = some t) :
    (∃ t2, ((c.applyOp op).1).transactions tx = some t2) ∧
    (op.storesAt tx = false →
      ∀ t2, ((c.applyOp op).1).transactions tx = some t2 →
        t2._transaction_id = t._transaction_id ∧ t2.amount = t.amount) ∧
    (∀ a, op = Op.deposit tx a → (c.applyOp op).2 = none →
      ((c.applyOp op).1).transactions tx = some (Transaction.new tx a)) ∧
    (∀ a, op = Op.withdrawal tx a → (c.applyOp op).2 = none →
      ((c.applyOp op).1).transactions tx = some (Transaction.new tx a)) := by
  refine ⟨?_, ?_, ?_, ?_⟩
  · cases op <;>
      simp only [Client.applyOp, Client.deposit, Client.withdrawal,
        Client.dispute, Client.resolve, Client.chargeback] <;>
      repeat' split
    all_goals
      first
        | exact ⟨t, ht⟩
        | (simp only [TxMap.insert]
           split
           · exact ⟨_, rfl⟩
           · exact ⟨t, ht⟩)
  · intro hs t2 h2
    cases op <;>
      simp only [Op.storesAt, beq_iff_eq] at hs <;>
      simp only [Client.applyOp, Client.deposit, Client.withdrawal,
        Client.dispute, Client.resolve, Client.chargeback] at h2 <;>
      repeat' split at h2
    all_goals
      simp only [TxMap.insert] at h2
    all_goals
      first
        | (rw [ht] at h2; cases h2; exact ⟨rfl, rfl⟩)
        | (split at h2 <;>
            first
              | (simp_all [Transaction.set_dispute_status]; cases h2 <;>
                  simp_all)
              | (rw [ht] at h2; cases h2; exact ⟨rfl, rfl⟩)
              | simp_all)
  · rintro a rfl hok
    simp only [Client.applyOp, Client.deposit] at hok ⊢
    split at hok <;> simp_all [TxMap.insert]
  · rintro a rfl hok
    simp only [Client.applyOp, Client.withdrawal] at hok ⊢
    repeat' split
    all_goals simp_all [TxMap.insert]

/-- C7 witness: resolving a disputed deposit keeps the record's id and
    amount. -/
theorem C7_record_lifecycle_witness :
    (Op.resolve 1).storesAt 1 = false ∧
      ((((((Client.new 1).deposit 1 3).1).dispute 1).1).applyOp
          (Op.resolve 1)).1.transactions 1 =
        some ((Transaction.new 1 3).set_dispute_status false) ∧
      ((Transaction.new 1 3).set_dispute_status false)._transaction_id =
          ((Transaction.new 1 3).set_dispute_status true)._transaction_id ∧
        ((Transaction.new 1 3).set_dispute_status false).amount =
          ((Transaction.new 1 3).set_dispute_status true).amount :=
  ⟨rfl, rfl,
    (C7_record_lifecycle ((((Client.new 1).deposit 1 3).1).dispute 1).1
        (Op.resolve 1) 1 ((Transaction.new 1 3).set_dispute_status true)
        rfl).2.1 rfl _ rfl⟩

/-- C8 counterexample: the code never checks that a deposit amount is
    non-negative, so depositing −1 into a fresh account (available = 0 ≥ 0)
    succeeds and leaves a negative available balance. -/
theorem C8_nonneg_available_counterexample :
    0 ≤ (Client.new 1).available_amount ∧
      ((Client.new 1).deposit 1 (-1)).2 = none ∧
      ((Client.new 1).deposit 1 (-1)).1.available_amount < 0 := by
  refine ⟨by decide, rfl, by decide⟩

/-- C8 amended: starting from a non-negative available balance, a deposit of
    a non-negative amount and a resolve of a stored record with non-negative
    amount both leave the available balance non-negative (whether they
    succeed or fail). -/
theorem C8_nonneg_available (c : Client) (tx : Nat) (amount : Money)
    (h : 0 ≤ c.available_amount) :
    (0 ≤ amount → 0 ≤ ((c.deposit tx amount).1).available_amount) ∧
    (∀ t, c.transactions tx = some t → 0 ≤ t.amount →
      0 ≤ ((c.resolve tx).1).available_amount) := by
  constructor
  · intro ha
    simp only [Client.deposit]
    split <;> simp <;> linarith
  · intro t ht ha
    simp only [Client.resolve]
    split
    · simpa
    · rw [ht]
      simp only [Transaction.get_amount]
      split <;> simp <;> linarith

/-- C8 witness: depositing 5 into a fresh account keeps available
    non-negative. -/
theorem C8_nonneg_available_witness :
    0 ≤ (((Client.new 1).deposit 1 5).1).available_amount :=
  (C8_nonneg_available (Client.new 1) 1 5 (by decide)).1 (by decide)

/-- Routing one token never removes an account from the ledger. -/
theorem processToken_preserves_mem (clients : Ledger) (token : Token)
    (k : Nat) (c : Client) (h : clients k = some c) :
    ∃ c2, processToken clients token k = some c2 := by
  cases htt : token.transaction_type <;>
    cases hta : token.amount <;>
    simp only [processToken, htt, hta]
  all_goals
    first
      | exact ⟨c, h⟩
      | (simp only [Ledger.insert]
         split
         · exact ⟨_, rfl⟩
         · exact ⟨c, h⟩)

/-- Routing a token list never removes an account from the ledger. -/
theorem process_requests_preserves_mem (tokens : List Token)
    (clients : Ledger) (k : Nat) (c : Client) (h : clients k = some c) :
    ∃ c2, process_requests tokens clients k = some c2 := by
  induction tokens generalizing clients c with
  | nil => exact ⟨c, h⟩
  | cons t ts ih =>
      obtain ⟨c2, h2⟩ := processToken_preserves_mem clients t k c h
      simpa [process_requests, List.foldl] using ih (processToken clients t) c2 h2

/-- C9: a deposit or withdrawal token carrying no amount is skipped: the
    ledger — every account and the set of accounts — is unchanged, and the
    run over the remaining tokens proceeds as if the record were absent. -/
theorem C9_missing_amount_skipped (clients : Ledger) (token : Token)
    (rest : List Token)
    (hk : token.transaction_type = TransactionType.Deposit ∨
      token.transaction_type = TransactionType.Withdrawal)
    (ha : token.amount = none) :
    processToken clients token = clients ∧
      process_requests (token :: rest) clients =
        process_requests rest clients := by
  have h1 : processToken clients token = clients := by
    rcases hk with hk | hk <;> simp [processToken, hk, ha]
  exact ⟨h1, by simp [process_requests, List.foldl, h1]⟩

/-- C9 witness: a deposit token with no amount leaves an empty ledger
    empty. -/
theorem C9_missing_amount_skipped_witness :
    processToken (fun _ => none)
        { transaction_type := TransactionType.Deposit, client_id := 1,
          transaction_id := 1, amount := none } = (fun _ => none) :=
  (C9_missing_amount_skipped (fun _ => none) _ [] (Or.inl rfl) rfl).1

/-- C10: a dispute, resolve or chargeback token for an unknown client id
    creates a fresh account (zero balances, unlocked, empty transaction map)
    in the ledger; the operation itself fails with `TransactionDoesNotExist`
    on that fresh account; and the account survives the rest of the run. -/
theorem C10_fresh_account_persists (clients : Ledger) (token : Token)
    (rest : List Token)
    (hk : token.transaction_type = TransactionType.Dispute ∨
      token.transaction_type = TransactionType.Resolve ∨
      token.transaction_type = TransactionType.Chargeback)
    (hnew : clients token.client_id = none) :
    processToken clients token token.client_id =
        some (Client.new token.client_id) ∧
    ((Client.new token.client_id).dispute token.transaction_id).2 =
        some (Error.TransactionDoesNotExist token.client_id
          token.transaction_id) ∧
    ((Client.new token.client_id).resolve token.transaction_id).2 =
        some (Error.TransactionDoesNotExist token.client_id
          token.transaction_id) ∧
    ((Client.new token.client_id).chargeback token.transaction_id).2 =
        some (Error.TransactionDoesNotExist token.client_id
          token.transaction_id) ∧
    ∃ c2, process_requests rest (processToken clients token)
        token.client_id = some c2 := by
  have h1 : processToken clients token token.client_id =
      some (Client.new token.client_id) := by
    rcases hk with hk | hk | hk <;>
      simp [processToken, hk, Ledger.insert, Ledger.entryOrNew, hnew,
        Client.dispute, Client.resolve, Client.chargeback, Client.new]
  refine ⟨h1, by simp [Client.dispute, Client.new], ?_, ?_, ?_⟩
  · simp [Client.resolve, Client.new]
  · simp [Client.chargeback, Client.new]
  · exact process_requests_preserves_mem rest _ _ _ h1

/-- C10 witness: a dispute token for an unknown client yields a fresh,
    empty, unlocked account in the snapshot. -/
theorem C10_fresh_account_persists_witness :
    processToken (fun _ => none)
        { transaction_type := TransactionType.Dispute, client_id := 2,
          transaction_id := 9, amount := none } 2 = some (Client.new 2) :=
  (C10_fresh_account_persists (fun _ => none) _ [] (Or.inl rfl) rfl).1

end ToyPay
